import Mathlib

/-!
Shallow embedding of the termux-notification-list MCP server (TypeScript)
and proofs about its specification claims.

The definitions below mirror, function by function, the source files
src/app/notification-monitor.ts, src/app/termux-notification-monitor.ts,
src/app/streamable-http.ts and src/app/sse.ts.  External collaborators
(JSON.parse, base64 decoding, the spawned listing command, the Node timer
queue) are modelled as explicit function parameters or explicit state.
-/

/-- One Android notification entry, mirroring NotificationSchema in
src/app/notification-monitor.ts: a zod object with seven required string
fields plus a numeric id. -/
structure Notification where
  id : Int
  tag : String
  key : String
  group : String
  packageName : String
  title : String
  content : String
  when : String
  deriving Repr, DecidableEq

/-- Events emitted by the monitor: emit of a newNotification payload, or
emit of an error payload, as in pollForNotifications. -/
inductive MonitorEvent where
  | newNotification (n : Notification)
  | error (e : String)
  deriving Repr, DecidableEq

/-- Bookkeeping for the Node timer queue: ids of timers that are scheduled
and have not yet fired, plus a fresh-id counter. -/
structure Sched where
  pending : List Nat
  nextId : Nat
  deriving Repr, DecidableEq

/-- Mutable state of a TermuxNotificationMonitor instance: the fields of the
abstract NotificationMonitor class (isMonitoring, lastKnownNotifications,
pollInterval) together with the subclass field monitorProcess and two
instrumentation counters (cleanupCalls counts invocations of the
cleanupMonitoring hook, killCalls counts kill calls on the recorded child
process), plus the timer queue. -/
structure MonitorState where
  isMonitoring : Bool
  lastKnownNotifications : List Notification
  pollInterval : Option Nat
  monitorProcess : Option Nat
  cleanupCalls : Nat
  killCalls : Nat
  sched : Sched
  deriving Repr, DecidableEq

/-- Outcome of one awaited getCurrentNotifications fetch: the promise either
resolves with a snapshot or rejects with an error message. -/
abbrev FetchResult := Except String (List Notification)

/-- NotificationMonitor.findNewNotifications (notification-monitor.ts lines
68 to 71): keep the records of the current snapshot whose key is not among
the keys of the last known snapshot. -/
def findNewNotifications (lastKnown current : List Notification) : List Notification :=
  let lastKnownKeys := lastKnown.map (fun n => n.key)
  current.filter (fun n => !(lastKnownKeys.contains n.key))

/-- TermuxNotificationMonitor.cleanupMonitoring (termux-notification-monitor.ts
lines 14 to 19): if a monitor process is recorded, kill it and clear the
handle; otherwise do nothing.  The counters record the invocation and the
kill so that theorems can talk about how often each happened. -/
def cleanupMonitoring (m : MonitorState) : MonitorState :=
  let m1 := { m with cleanupCalls := m.cleanupCalls + 1 }
  match m1.monitorProcess with
  | some _ => { m1 with killCalls := m1.killCalls + 1, monitorProcess := none }
  | none => m1

/-- NotificationMonitor.stopMonitoring (notification-monitor.ts lines 32 to
41): set isMonitoring to false, invoke the cleanup hook, then cancel the
pending timer if one is recorded. -/
def stopMonitoring (m : MonitorState) : MonitorState :=
  let m1 := { m with isMonitoring := false }
  let m2 := cleanupMonitoring m1
  match m2.pollInterval with
  | some id =>
      { m2 with pollInterval := none,
                sched := { m2.sched with pending := m2.sched.pending.erase id } }
  | none => m2

/-- Lines 62 to 65 of notification-monitor.ts: if still monitoring, schedule
the next poll with a fresh timer and remember its handle in pollInterval. -/
def reschedule (m : MonitorState) : MonitorState :=
  if m.isMonitoring then
    { m with pollInterval := some m.sched.nextId,
             sched := { pending := m.sched.pending ++ [m.sched.nextId],
                        nextId := m.sched.nextId + 1 } }
  else m

/-- NotificationMonitor.pollForNotifications (notification-monitor.ts lines
45 to 66), one run of the body with the awaited fetch outcome supplied as an
argument: return unchanged when not monitoring; on success emit one
newNotification event per record found by findNewNotifications and replace
lastKnownNotifications with the new snapshot; on failure emit one error
event and leave lastKnownNotifications unchanged; in both cases reschedule
while isMonitoring still holds. -/
def pollForNotifications (m : MonitorState) (fetch : FetchResult) :
    MonitorState × List MonitorEvent :=
  if m.isMonitoring = false then (m, [])
  else
    match fetch with
    | Except.ok current =>
        (reschedule { m with lastKnownNotifications := current },
         (findNewNotifications m.lastKnownNotifications current).map MonitorEvent.newNotification)
    | Except.error e => (reschedule m, [MonitorEvent.error e])

/-- NotificationMonitor.startMonitoring (notification-monitor.ts lines 23 to
30): return immediately when already monitoring, otherwise set isMonitoring
and run an immediate poll. -/
def startMonitoring (m : MonitorState) (fetch : FetchResult) :
    MonitorState × List MonitorEvent :=
  if m.isMonitoring then (m, [])
  else pollForNotifications { m with isMonitoring := true } fetch

/-- A scheduled poll timer fires: it leaves the pending set just before its
callback pollForNotifications runs.  The stale handle stays in pollInterval,
as in Node. -/
def fireTimer (m : MonitorState) : MonitorState :=
  match m.pollInterval with
  | some id => { m with sched := { m.sched with pending := m.sched.pending.erase id } }
  | none => m

/-- A sequence of timer-driven polls, each consuming one fetch outcome, with
all emitted events concatenated in order. -/
def runPolls (m : MonitorState) : List FetchResult → MonitorState × List MonitorEvent
  | [] => (m, [])
  | f :: fs =>
      let step := pollForNotifications (fireTimer m) f
      let rest := runPolls step.1 fs
      (rest.1, step.2 ++ rest.2)

/-- The snapshot delivered by the last successful fetch of a sequence,
starting from a given initial snapshot. -/
def lastSuccessful (init : List Notification) : List FetchResult → List Notification
  | [] => init
  | Except.ok c :: fs => lastSuccessful c fs
  | Except.error _ :: fs => lastSuccessful init fs

/-- Session-level state of the express app in streamable-http.ts: the
transports map of streamable HTTP sessions and the oldTransports map of
legacy SSE sessions, both keyed by session id; the number of per-session
newNotification listeners registered on the monitor; and the process-wide
shared monitor. -/
structure ServerState where
  transports : List String
  oldTransports : List String
  notificationListeners : Nat
  monitor : MonitorState
  deriving Repr, DecidableEq

/-- The transport onclose handler installed for a streamable HTTP session
(streamable-http.ts lines 181 to 186): when the transport has a session id
that is present in the transports map, delete that entry. -/
def transportOnclose (st : ServerState) (sessionId : Option String) : ServerState :=
  match sessionId with
  | some sid =>
      if st.transports.contains sid then { st with transports := st.transports.erase sid }
      else st
  | none => st

/-- The res close handler of the legacy SSE endpoint (streamable-http.ts
lines 232 to 235, and the same shape in sse.ts lines 160 to 163): detach the
per-session newNotification listener from the monitor and delete the session
entry from the oldTransports map. -/
def sseResClose (st : ServerState) (sessionId : String) : ServerState :=
  { st with notificationListeners := st.notificationListeners - 1,
            oldTransports := st.oldTransports.erase sessionId }

/-- The onclose handler of the MCP server itself
(termux-notification-list-mcp-server.ts, lines 562 to 564 of the
concatenated streamable-http source): stop the shared monitor when the whole
server closes.  This is the server shutdown hook, distinct from the
per-session close handlers above. -/
def serverOnclose (st : ServerState) : ServerState :=
  { st with monitor := stopMonitoring st.monitor }

/-- JS truthiness of an optional string: an absent value and the empty
string are falsy, every other string is truthy. -/
def truthyStr : Option String → Bool
  | some s => !(s == "")
  | none => false

/-- The JS builtin substring with one argument: drop the first n units of
the string. -/
def jsSubstring (s : String) (n : Nat) : String :=
  String.mk (s.toList.drop n)

/-- The JS builtin startsWith. -/
def jsStartsWith (s pre : String) : Bool :=
  pre.toList.isPrefixOf s.toList

/-- The JS builtin split with a one-character separator. -/
def jsSplit (s : String) (sep : Char) : List String :=
  (s.toList.splitOn sep).map String.mk

/-- The JS builtin trim: remove leading and trailing whitespace. -/
def jsTrim (s : String) : String :=
  String.mk (((s.toList.dropWhile Char.isWhitespace).reverse.dropWhile
    Char.isWhitespace).reverse)

/-- Credential configuration of the authentication middleware: bearerToken,
basicUser and basicPass, each possibly unset. -/
structure AuthConfig where
  bearerToken : Option String
  basicUser : Option String
  basicPass : Option String
  deriving Repr, DecidableEq

/-- The request data the authentication middleware reads: the authorization
header and the token query parameter. -/
structure AuthRequest where
  authorization : Option String
  queryToken : Option String
  deriving Repr, DecidableEq

/-- Outcome of the authentication middleware: pass the request on, or answer
with a status code and a JSON error message. -/
inductive AuthResult where
  | allow
  | deny (status : Nat) (message : String)
  deriving Repr, DecidableEq

/-- Destructuring of credentials.split with a colon separator, as in const
bracket username, password bracket: username is the text before the first
colon, password is the second segment and is missing when the string has no
colon. -/
def splitCredentials (credentials : String) : String × Option String :=
  match jsSplit credentials ':' with
  | [] => ("", none)
  | [u] => (u, none)
  | u :: p :: _ => (u, some p)

/-- The authenticate middleware (streamable-http.ts lines 77 to 135; the
copy in sse.ts lines 58 to 119 has identical logic with env-supplied
configuration).  base64ToAscii stands for the Buffer base64 decoding, an
external collaborator.  The branches appear in source order: the permissive
no-configuration default, the query token check, the missing-credentials
check, the Bearer header check, the Basic header check, and the
unsupported-method fallback. -/
def authenticate (cfg : AuthConfig) (base64ToAscii : String → String)
    (req : AuthRequest) : AuthResult :=
  let authHeader := req.authorization
  let queryToken := req.queryToken
  if !(truthyStr cfg.bearerToken) && !(truthyStr cfg.basicUser) then
    AuthResult.allow
  else if truthyStr queryToken && truthyStr cfg.bearerToken then
    if !(queryToken.getD "" == cfg.bearerToken.getD "") then
      AuthResult.deny 401 "Unauthorized: Invalid query token"
    else AuthResult.allow
  else if !(truthyStr authHeader) && !(truthyStr queryToken) then
    AuthResult.deny 401 "Unauthorized: Authentication required"
  else if jsStartsWith (authHeader.getD "") "Bearer " then
    if !(truthyStr cfg.bearerToken) then
      AuthResult.deny 401 "Unauthorized: Bearer token authentication not configured"
    else
      let providedToken := jsSubstring (authHeader.getD "") 7
      if !(providedToken == cfg.bearerToken.getD "") then
        AuthResult.deny 401 "Unauthorized: Invalid token"
      else AuthResult.allow
  else if jsStartsWith (authHeader.getD "") "Basic " then
    if !(truthyStr cfg.basicUser) || !(truthyStr cfg.basicPass) then
      AuthResult.deny 401 "Unauthorized: Basic authentication not configured"
    else
      let credentials := base64ToAscii (jsSubstring (authHeader.getD "") 6)
      let userPass := splitCredentials credentials
      if !(userPass.1 == cfg.basicUser.getD "") ||
          (match userPass.2 with
           | some p => !(p == cfg.basicPass.getD "")
           | none => true) then
        AuthResult.deny 401 "Unauthorized: Invalid credentials"
      else AuthResult.allow
  else
    AuthResult.deny 401 "Unauthorized: Unsupported authentication method"

/-- The getCurrentNotifications tool handler (lines 477 to 517 of the
concatenated streamable-http source, in
createTermuxNotificationListMcpServer), applied to the snapshot the monitor
returned: filter by packageName when that argument is truthy, then slice to
the first limit entries when limit is truthy and positive. -/
def getCurrentNotificationsHandler (snapshot : List Notification)
    (packageName : Option String) (limit : Option Int) : List Notification :=
  let notifications := snapshot
  let notifications :=
    if truthyStr packageName then
      notifications.filter (fun n => n.packageName == packageName.getD "")
    else notifications
  let notifications :=
    match limit with
    | some l => if 0 < l then notifications.take l.toNat else notifications
    | none => notifications
  notifications

/-- JSON values as produced by JSON.parse. -/
inductive Json where
  | null
  | bool (b : Bool)
  | num (n : Int)
  | str (s : String)
  | arr (elements : List Json)
  | obj (fields : List (String × Json))

/-- First field of a JS object with the given key, as read by zod. -/
def getField (fields : List (String × Json)) (k : String) : Option Json :=
  (fields.find? (fun f => f.1 == k)).map (fun f => f.2)

/-- Numeric payload of a JSON value, when it is a number. -/
def asNum : Json → Option Int
  | Json.num n => some n
  | _ => none

/-- String payload of a JSON value, when it is a string. -/
def asStr : Json → Option String
  | Json.str s => some s
  | _ => none

/-- NotificationSchema.parse on one JSON value: succeeds on an object whose
seven listed fields are present with the right types (unknown keys are
stripped, as zod does by default), fails on anything else. -/
def validateNotification : Json → Option Notification
  | Json.obj fields => do
      let id ← getField fields "id" >>= asNum
      let tag ← getField fields "tag" >>= asStr
      let key ← getField fields "key" >>= asStr
      let group ← getField fields "group" >>= asStr
      let packageName ← getField fields "packageName" >>= asStr
      let title ← getField fields "title" >>= asStr
      let content ← getField fields "content" >>= asStr
      let whenText ← getField fields "when" >>= asStr
      pure { id := id, tag := tag, key := key, group := group,
             packageName := packageName, title := title, content := content,
             when := whenText }
  | _ => none

/-- Strict batch validation, z.array of NotificationSchema: succeeds with
the validated records if and only if every element validates. -/
def parseNotificationArray : List Json → Option (List Notification)
  | [] => some []
  | j :: js =>
      match validateNotification j, parseNotificationArray js with
      | some n, some ns => some (n :: ns)
      | _, _ => none

/-- JS truthiness test on a parsed JSON value, as in the null-response
check: null, false, zero and the empty string are falsy. -/
def jsFalsy : Json → Bool
  | Json.null => true
  | Json.bool b => !b
  | Json.num n => n == 0
  | Json.str s => s == ""
  | Json.arr _ => false
  | Json.obj _ => false

/-- Array.isArray on a parsed JSON value. -/
def isJsonArray : Json → Bool
  | Json.arr _ => true
  | _ => false

/-- The close handler of the spawned listing command in
TermuxNotificationMonitor.getCurrentNotifications
(termux-notification-monitor.ts lines 50 to 109), as a function of the data
it receives: the exit code, the collected stdout and stderr text, and the
external JSON.parse (which either yields a JSON value or throws).  Non-zero
exit rejects; empty trimmed output resolves with the empty snapshot; a parse
exception rejects; a falsy parsed value resolves with the empty snapshot; a
non-array value is wrapped into a one-element batch; strict batch validation
is attempted first and, on its failure, the individually valid entries are
kept in source order.  The fallback branch of the source resolves the raw
entries that pass the schema; here they appear as their validated images,
which carry the same seven fields read downstream. -/
def termuxGetCurrentNotifications (jsonParse : String → Except String Json)
    (exitCode : Int) (stdout stderrText : String) : FetchResult :=
  if exitCode ≠ 0 then
    Except.error ("notification list command failed with code " ++
      toString exitCode ++ ": " ++ stderrText)
  else
    let trimmedOutput := jsTrim stdout
    if trimmedOutput == "" then Except.ok []
    else
      match jsonParse trimmedOutput with
      | Except.error e => Except.error ("Failed to parse notification data: " ++ e)
      | Except.ok notifications =>
          if jsFalsy notifications then Except.ok []
          else
            let notificationArray :=
              match notifications with
              | Json.arr elements => elements
              | j => [j]
            match parseNotificationArray notificationArray with
            | some validated => Except.ok validated
            | none => Except.ok (notificationArray.filterMap validateNotification)

/-- Sample record used by concrete witnesses. -/
def sampleA : Notification :=
  ⟨1, "tagA", "keyA", "groupA", "com.example.app", "titleA", "contentA", "2024"⟩

/-- Second sample record used by concrete witnesses. -/
def sampleB : Notification :=
  ⟨2, "tagB", "keyB", "groupB", "com.example.other", "titleB", "contentB", "2024"⟩

/-- A monitor that is monitoring with an empty last known snapshot. -/
def monitor0 : MonitorState := ⟨true, [], none, none, 0, 0, ⟨[], 0⟩⟩

/-- A monitor that is monitoring and already knows sampleA. -/
def monitorWithA : MonitorState := ⟨true, [sampleA], none, none, 0, 0, ⟨[], 0⟩⟩

/-- A freshly constructed monitor, not yet monitoring. -/
def monitorOff : MonitorState := ⟨false, [], none, none, 0, 0, ⟨[], 0⟩⟩

/-- Sample fetch sequence: one success, one failure, one success. -/
def fsSample : List FetchResult :=
  [Except.ok [sampleA], Except.error "fetch failed", Except.ok [sampleA, sampleB]]

/-- Sample server state with two streamable sessions and one SSE session. -/
def serverSt : ServerState := ⟨["s1", "s2"], ["o1"], 1, monitor0⟩

theorem reschedule_isMonitoring (m : MonitorState) :
    (reschedule m).isMonitoring = m.isMonitoring := by
  unfold reschedule; split <;> rfl

theorem reschedule_lastKnown (m : MonitorState) :
    (reschedule m).lastKnownNotifications = m.lastKnownNotifications := by
  unfold reschedule; split <;> rfl

theorem fireTimer_isMonitoring (m : MonitorState) :
    (fireTimer m).isMonitoring = m.isMonitoring := by
  unfold fireTimer; split <;> rfl

theorem fireTimer_lastKnown (m : MonitorState) :
    (fireTimer m).lastKnownNotifications = m.lastKnownNotifications := by
  unfold fireTimer; split <;> rfl

theorem pollForNotifications_isMonitoring (m : MonitorState) (f : FetchResult) :
    (pollForNotifications m f).1.isMonitoring = m.isMonitoring := by
  unfold pollForNotifications
  split
  · rfl
  · split <;> simp [reschedule_isMonitoring]

theorem pollForNotifications_ok_events (m : MonitorState) (current : List Notification)
    (hm : m.isMonitoring = true) :
    (pollForNotifications m (Except.ok current)).2
      = (findNewNotifications m.lastKnownNotifications current).map
          MonitorEvent.newNotification := by
  unfold pollForNotifications
  simp [hm]

theorem pollForNotifications_ok_lastKnown (m : MonitorState) (current : List Notification)
    (hm : m.isMonitoring = true) :
    (pollForNotifications m (Except.ok current)).1.lastKnownNotifications = current := by
  unfold pollForNotifications
  simp [hm, reschedule_lastKnown]

theorem pollForNotifications_error_state (m : MonitorState) (e : String) :
    (pollForNotifications m (Except.error e)).1.lastKnownNotifications
      = m.lastKnownNotifications := by
  unfold pollForNotifications
  split
  · rfl
  · simp [reschedule_lastKnown]

theorem pollForNotifications_error_events (m : MonitorState) (e : String)
    (hm : m.isMonitoring = true) :
    (pollForNotifications m (Except.error e)).2 = [MonitorEvent.error e] := by
  unfold pollForNotifications
  simp [hm]

theorem pollForNotifications_pending (m : MonitorState) (f : FetchResult)
    (hm : m.isMonitoring = true) :
    (pollForNotifications m f).1.sched.pending
      = m.sched.pending ++ [m.sched.nextId] := by
  unfold pollForNotifications reschedule
  cases f <;> simp [hm]

theorem runPolls_isMonitoring (fs : List FetchResult) (m : MonitorState) :
    (runPolls m fs).1.isMonitoring = m.isMonitoring := by
  induction fs generalizing m with
  | nil => rfl
  | cons f fs ih =>
      simp only [runPolls]
      rw [ih, pollForNotifications_isMonitoring, fireTimer_isMonitoring]

theorem runPolls_lastKnown (fs : List FetchResult) (m : MonitorState)
    (hm : m.isMonitoring = true) :
    (runPolls m fs).1.lastKnownNotifications
      = lastSuccessful m.lastKnownNotifications fs := by
  induction fs generalizing m with
  | nil => rfl
  | cons f fs ih =>
      have hft : (fireTimer m).isMonitoring = true := by
        rw [fireTimer_isMonitoring]; exact hm
      have hpm : (pollForNotifications (fireTimer m) f).1.isMonitoring = true := by
        rw [pollForNotifications_isMonitoring]; exact hft
      cases f with
      | ok c =>
          simp only [runPolls, lastSuccessful]
          rw [ih _ hpm, pollForNotifications_ok_lastKnown _ _ hft]
      | error e =>
          simp only [runPolls, lastSuccessful]
          rw [ih _ hpm, pollForNotifications_error_state, fireTimer_lastKnown]

/-- Claim C1: over any sequence of polls, a successful poll emits exactly
the records of the new snapshot whose key is absent from the key set of the
immediately preceding successful snapshot, one newNotification event per
record in source order; in particular a record whose key appeared in that
snapshot is never emitted. -/
theorem poll_emits_exactly_unseen_records
    (m : MonitorState) (fs : List FetchResult) (i : Nat) (current : List Notification)
    (hmon : m.isMonitoring = true) (_hi : fs[i]? = some (Except.ok current)) :
    (pollForNotifications (fireTimer ((runPolls m (fs.take i)).1)) (Except.ok current)).2
      = (current.filter (fun n =>
          !(((lastSuccessful m.lastKnownNotifications (fs.take i)).map
              (fun p => p.key)).contains n.key))).map MonitorEvent.newNotification
    ∧ ∀ n : Notification,
        ((lastSuccessful m.lastKnownNotifications (fs.take i)).map
            (fun p => p.key)).contains n.key = true →
        MonitorEvent.newNotification n ∉
          (pollForNotifications (fireTimer ((runPolls m (fs.take i)).1))
            (Except.ok current)).2 := by
  have h1 : (runPolls m (fs.take i)).1.isMonitoring = true := by
    rw [runPolls_isMonitoring]; exact hmon
  have h2 : (fireTimer ((runPolls m (fs.take i)).1)).isMonitoring = true := by
    rw [fireTimer_isMonitoring]; exact h1
  have h3 : (fireTimer ((runPolls m (fs.take i)).1)).lastKnownNotifications
      = lastSuccessful m.lastKnownNotifications (fs.take i) := by
    rw [fireTimer_lastKnown, runPolls_lastKnown _ _ hmon]
  have hev : (pollForNotifications (fireTimer ((runPolls m (fs.take i)).1))
        (Except.ok current)).2
      = (findNewNotifications (lastSuccessful m.lastKnownNotifications (fs.take i))
          current).map MonitorEvent.newNotification := by
    rw [pollForNotifications_ok_events _ _ h2, h3]
  refine ⟨by rw [hev]; rfl, ?_⟩
  intro n hkey hmem
  rw [hev] at hmem
  unfold findNewNotifications at hmem
  simp only [List.mem_map, List.mem_filter, MonitorEvent.newNotification.injEq] at hmem
  obtain ⟨a, ⟨hac, hanew⟩, haeq⟩ := hmem
  subst haeq
  rw [hkey] at hanew
  simp at hanew

/-- Claim C1 witness at a concrete poll sequence: after one successful
snapshot with sampleA and one failed fetch, the successful poll with both
samples emits exactly one event, for sampleB. -/
theorem poll_emits_exactly_unseen_records_witness :
    monitor0.isMonitoring = true
    ∧ fsSample[2]? = some (Except.ok [sampleA, sampleB])
    ∧ (pollForNotifications (fireTimer ((runPolls monitor0 (fsSample.take 2)).1))
        (Except.ok [sampleA, sampleB])).2 = [MonitorEvent.newNotification sampleB] :=
  ⟨rfl, rfl,
    ((poll_emits_exactly_unseen_records monitor0 fsSample 2 [sampleA, sampleB]
        rfl rfl).1).trans (by decide)⟩

/-- Claim C2: a failed fetch emits one error event and leaves the last known
snapshot unchanged, and the next successful poll emits newNotification
events exactly for the records whose keys were absent from the snapshot
held before the failed poll. -/
theorem fetch_failure_preserves_lastKnownSnapshot
    (m : MonitorState) (e : String) (current : List Notification)
    (hmon : m.isMonitoring = true) :
    (pollForNotifications m (Except.error e)).2 = [MonitorEvent.error e]
    ∧ (pollForNotifications m (Except.error e)).1.lastKnownNotifications
        = m.lastKnownNotifications
    ∧ (pollForNotifications (pollForNotifications m (Except.error e)).1
        (Except.ok current)).2
        = (current.filter (fun n =>
            !((m.lastKnownNotifications.map (fun p => p.key)).contains n.key))).map
          MonitorEvent.newNotification := by
  have h1 := pollForNotifications_error_state m e
  have h2 : (pollForNotifications m (Except.error e)).1.isMonitoring = true := by
    rw [pollForNotifications_isMonitoring]; exact hmon
  refine ⟨pollForNotifications_error_events m e hmon, h1, ?_⟩
  rw [pollForNotifications_ok_events _ _ h2, h1]
  rfl

/-- Claim C2 witness: a monitor knowing sampleA survives a failed fetch with
its snapshot intact, and the following successful poll reports only
sampleB. -/
theorem fetch_failure_preserves_lastKnownSnapshot_witness :
    monitorWithA.isMonitoring = true
    ∧ (pollForNotifications monitorWithA (Except.error "boom")).2
        = [MonitorEvent.error "boom"]
    ∧ (pollForNotifications monitorWithA (Except.error "boom")).1.lastKnownNotifications
        = [sampleA]
    ∧ (pollForNotifications (pollForNotifications monitorWithA (Except.error "boom")).1
        (Except.ok [sampleA, sampleB])).2 = [MonitorEvent.newNotification sampleB] :=
  ⟨rfl,
    (fetch_failure_preserves_lastKnownSnapshot monitorWithA "boom"
      [sampleA, sampleB] rfl).1,
    ((fetch_failure_preserves_lastKnownSnapshot monitorWithA "boom"
      [sampleA, sampleB] rfl).2.1).trans rfl,
    ((fetch_failure_preserves_lastKnownSnapshot monitorWithA "boom"
      [sampleA, sampleB] rfl).2.2).trans (by decide)⟩

/-- Claim C7: startMonitoring is idempotent.  When already monitoring it
returns the state unchanged with no events; otherwise it sets isMonitoring
and performs an immediate poll; two starts in a row leave exactly one
pending timer and the second start changes nothing. -/
theorem startMonitoring_idempotent
    (m : MonitorState) (f f2 : FetchResult) :
    (m.isMonitoring = true → startMonitoring m f = (m, []))
    ∧ (m.isMonitoring = false →
        (startMonitoring m f).1.isMonitoring = true
        ∧ startMonitoring m f = pollForNotifications { m with isMonitoring := true } f)
    ∧ (m.isMonitoring = false → m.sched.pending = [] →
        (startMonitoring (startMonitoring m f).1 f2).1.sched.pending.length = 1
        ∧ startMonitoring (startMonitoring m f).1 f2 = ((startMonitoring m f).1, [])) := by
  have hsecond : ∀ m1 : MonitorState, m1.isMonitoring = true →
      startMonitoring m1 f2 = (m1, []) := by
    intro m1 h; unfold startMonitoring; simp [h]
  refine ⟨?_, ?_, ?_⟩
  · intro hm; unfold startMonitoring; simp [hm]
  · intro hm
    have hstart : startMonitoring m f
        = pollForNotifications { m with isMonitoring := true } f := by
      unfold startMonitoring; simp [hm]
    refine ⟨?_, hstart⟩
    rw [hstart, pollForNotifications_isMonitoring]
  · intro hm hp
    have hstart : startMonitoring m f
        = pollForNotifications { m with isMonitoring := true } f := by
      unfold startMonitoring; simp [hm]
    have hm1 : (startMonitoring m f).1.isMonitoring = true := by
      rw [hstart, pollForNotifications_isMonitoring]
    have hpend : (startMonitoring m f).1.sched.pending = [m.sched.nextId] := by
      rw [hstart, pollForNotifications_pending _ _ rfl]
      simp [hp]
    refine ⟨?_, hsecond _ hm1⟩
    rw [hsecond _ hm1]
    simp [hpend]

/-- Claim C7 witness: starting a fresh monitor twice leaves exactly one
pending timer. -/
theorem startMonitoring_idempotent_witness :
    monitorOff.isMonitoring = false
    ∧ monitorOff.sched.pending = []
    ∧ (startMonitoring (startMonitoring monitorOff (Except.ok [sampleA])).1
        (Except.ok [sampleA])).1.sched.pending.length = 1 :=
  ⟨rfl, rfl,
    ((startMonitoring_idempotent monitorOff (Except.ok [sampleA])
        (Except.ok [sampleA])).2.2 rfl rfl).1⟩

/-- Claim C8: stopMonitoring is idempotent and safe.  Every stop call sets
isMonitoring to false, clears and cancels the pending timer, and invokes the
cleanupMonitoring hook exactly once; a second stop call does not kill the
child process again. -/
theorem stopMonitoring_idempotent_and_single_cleanup (m : MonitorState) :
    (stopMonitoring m).isMonitoring = false
    ∧ (stopMonitoring m).pollInterval = none
    ∧ (stopMonitoring m).sched.pending
        = (match m.pollInterval with
           | some id => m.sched.pending.erase id
           | none => m.sched.pending)
    ∧ (stopMonitoring m).cleanupCalls = m.cleanupCalls + 1
    ∧ (stopMonitoring (stopMonitoring m)).killCalls = (stopMonitoring m).killCalls := by
  unfold stopMonitoring cleanupMonitoring
  cases hp : m.monitorProcess <;> cases hq : m.pollInterval <;> simp [hp, hq]

theorem transportOnclose_monitor (st : ServerState) (sid : Option String) :
    (transportOnclose st sid).monitor = st.monitor := by
  unfold transportOnclose
  cases sid with
  | none => rfl
  | some s => by_cases h : s ∈ st.transports <;> simp [h]

theorem transportOnclose_oldTransports (st : ServerState) (sid : Option String) :
    (transportOnclose st sid).oldTransports = st.oldTransports := by
  unfold transportOnclose
  cases sid with
  | none => rfl
  | some s => by_cases h : s ∈ st.transports <;> simp [h]

/-- Claim C3: closing one session releases only the transport resources of
that session and never stops the process-wide shared monitor.  Both session
close handlers, the streamable transport onclose and the SSE response close,
leave the monitor untouched, so isMonitoring stays true and the last known
snapshot is unchanged, and each removes only its own session entry. -/
theorem session_close_preserves_shared_monitor
    (st : ServerState) (sid : Option String) (sid2 : String)
    (hmon : st.monitor.isMonitoring = true) :
    (transportOnclose st sid).monitor = st.monitor
    ∧ (transportOnclose st sid).monitor.isMonitoring = true
    ∧ (transportOnclose st sid).monitor.lastKnownNotifications
        = st.monitor.lastKnownNotifications
    ∧ (transportOnclose st sid).oldTransports = st.oldTransports
    ∧ (st.transports.contains sid2 = true →
        (transportOnclose st (some sid2)).transports = st.transports.erase sid2)
    ∧ (sseResClose st sid2).monitor = st.monitor
    ∧ (sseResClose st sid2).monitor.isMonitoring = true
    ∧ (sseResClose st sid2).transports = st.transports := by
  refine ⟨transportOnclose_monitor st sid, ?_, ?_,
    transportOnclose_oldTransports st sid, ?_, rfl, hmon, rfl⟩
  · rw [transportOnclose_monitor]; exact hmon
  · rw [transportOnclose_monitor]
  · intro h
    unfold transportOnclose
    simp at h
    simp [h]

/-- Claim C3 witness: closing the streamable session s1 and the SSE session
o1 on a concrete server state leaves the shared monitor intact. -/
theorem session_close_preserves_shared_monitor_witness :
    serverSt.monitor.isMonitoring = true
    ∧ (transportOnclose serverSt (some "s1")).monitor = serverSt.monitor
    ∧ (sseResClose serverSt "o1").monitor = serverSt.monitor
    ∧ (transportOnclose serverSt (some "s1")).transports = ["s2"] :=
  ⟨rfl,
    (session_close_preserves_shared_monitor serverSt (some "s1") "o1" rfl).1,
    (session_close_preserves_shared_monitor serverSt (some "s1") "o1" rfl).2.2.2.2.2.1,
    ((session_close_preserves_shared_monitor serverSt (some "s1") "s1" rfl).2.2.2.2.1
      (by decide)).trans (by decide)⟩

/-- Claim C4 counterexample: with packageName supplied as the empty string
the handler does not filter at all, while filtering by exact packageName
equality would remove every record of this snapshot, so the handler does
not filter by exact equality for every supplied packageName. -/
theorem getCurrentNotifications_empty_packageName_skips_filter :
    getCurrentNotificationsHandler [sampleA] (some "") none = [sampleA]
    ∧ [sampleA].filter (fun n => n.packageName == "") = []
    ∧ getCurrentNotificationsHandler [sampleA] (some "") none
        ≠ [sampleA].filter (fun n => n.packageName == "") := by
  refine ⟨rfl, rfl, ?_⟩
  decide

/-- Claim C4 as amended: when a non-empty packageName is supplied the
handler filters the snapshot by exact packageName equality in source order
(an empty packageName, being falsy, disables the filter), and the positive
limit is applied afterwards, so limit bounds the filtered subset rather
than the raw snapshot. -/
theorem getCurrentNotifications_filter_then_limit
    (snapshot : List Notification) (p : String) (l : Int)
    (hp : p ≠ "") (hl : 0 < l) :
    getCurrentNotificationsHandler snapshot (some p) (some l)
      = (snapshot.filter (fun n => n.packageName == p)).take l.toNat
    ∧ getCurrentNotificationsHandler snapshot (some p) none
      = snapshot.filter (fun n => n.packageName == p)
    ∧ getCurrentNotificationsHandler snapshot none (some l) = snapshot.take l.toNat
    ∧ getCurrentNotificationsHandler snapshot none none = snapshot
    ∧ (getCurrentNotificationsHandler snapshot (some p) (some l)).length
        ≤ (snapshot.filter (fun n => n.packageName == p)).length := by
  have ht : truthyStr (some p) = true := by simp [truthyStr, hp]
  have h1 : getCurrentNotificationsHandler snapshot (some p) (some l)
      = (snapshot.filter (fun n => n.packageName == p)).take l.toNat := by
    unfold getCurrentNotificationsHandler
    simp [ht, hl]
  refine ⟨h1, ?_, ?_, rfl, ?_⟩
  · unfold getCurrentNotificationsHandler
    simp [ht]
  · unfold getCurrentNotificationsHandler
    simp [truthyStr, hl]
  · rw [h1, List.length_take]
    exact Nat.min_le_right _ _

/-- Claim C4 witness: over two matching records and one non-matching
record, packageName filtering with limit one returns one record from the
matching subset. -/
theorem getCurrentNotifications_filter_then_limit_witness :
    ("com.example.app" : String) ≠ ""
    ∧ (0 : Int) < 1
    ∧ getCurrentNotificationsHandler [sampleA, sampleB, sampleA]
        (some "com.example.app") (some 1) = [sampleA] :=
  ⟨by decide, by decide,
    ((getCurrentNotifications_filter_then_limit [sampleA, sampleB, sampleA]
        "com.example.app" 1 (by decide) (by decide)).1).trans (by decide)⟩

/-- Claim C5 counterexample: with both mechanisms configured, valid basic
credentials admit a request when no query token is present, yet the very
same credentials are rejected when an invalid query token accompanies
them; hence one valid credential does not admit the request regardless of
the other credentials supplied. -/
theorem invalid_query_token_rejects_despite_valid_basic :
    authenticate ⟨some "T", some "alice", some "pw"⟩ (fun s => s)
        ⟨some "Basic alice:pw", none⟩ = AuthResult.allow
    ∧ authenticate ⟨some "T", some "alice", some "pw"⟩ (fun s => s)
        ⟨some "Basic alice:pw", some "WRONG"⟩
        = AuthResult.deny 401 "Unauthorized: Invalid query token"
    ∧ authenticate ⟨some "T", some "alice", some "pw"⟩ (fun s => s)
        ⟨some "Basic alice:pw", some "WRONG"⟩ ≠ AuthResult.allow := by
  refine ⟨rfl, rfl, ?_⟩
  decide

/-- Claim C5 as amended: when both mechanisms are configured, a valid query
token admits the request whatever the authorization header holds; a
present but invalid query token rejects the request regardless of the
header; and when no query token is supplied, a valid bearer header or
valid basic credentials admits the request. -/
theorem configured_credentials_admit_requests
    (token user pass : String) (dec : String → String) (req : AuthRequest)
    (htok : token ≠ "") (huser : user ≠ "") (hpass : pass ≠ "") :
    (req.queryToken = some token →
      authenticate ⟨some token, some user, some pass⟩ dec req = AuthResult.allow)
    ∧ (∀ q, req.queryToken = some q → q ≠ "" → q ≠ token →
        authenticate ⟨some token, some user, some pass⟩ dec req
          = AuthResult.deny 401 "Unauthorized: Invalid query token")
    ∧ (truthyStr req.queryToken = false →
        ∀ h, req.authorization = some h → jsStartsWith h "Bearer " = true →
          jsSubstring h 7 = token →
          authenticate ⟨some token, some user, some pass⟩ dec req = AuthResult.allow)
    ∧ (truthyStr req.queryToken = false →
        ∀ h, req.authorization = some h → jsStartsWith h "Bearer " = false →
          jsStartsWith h "Basic " = true →
          splitCredentials (dec (jsSubstring h 6)) = (user, some pass) →
          authenticate ⟨some token, some user, some pass⟩ dec req = AuthResult.allow) := by
  refine ⟨?_, ?_, ?_, ?_⟩
  · intro hq
    simp [authenticate, hq, truthyStr, htok]
  · intro q hq hqne hqtok
    simp [authenticate, hq, truthyStr, htok, hqne, hqtok]
  · intro hqt h hh hbear hdrop
    have hne : h ≠ "" := by
      intro he
      rw [he] at hbear
      simp [jsStartsWith] at hbear
    have htokT : truthyStr (some token) = true := by simp [truthyStr, htok]
    have hhT : truthyStr (some h) = true := by simp [truthyStr, hne]
    simp [authenticate, hh, hqt, hbear, hdrop, htokT, hhT]
  · intro hqt h hh hbear hbasic hsplit
    have hne : h ≠ "" := by
      intro he
      rw [he] at hbasic
      simp [jsStartsWith] at hbasic
    have htokT : truthyStr (some token) = true := by simp [truthyStr, htok]
    have huserT : truthyStr (some user) = true := by simp [truthyStr, huser]
    have hpassT : truthyStr (some pass) = true := by simp [truthyStr, hpass]
    have hhT : truthyStr (some h) = true := by simp [truthyStr, hne]
    simp [authenticate, hh, hqt, hbear, hbasic, hsplit, htokT, huserT, hpassT, hhT]

/-- Claim C5 witness: with both mechanisms configured, a valid bearer header
admits one request and valid basic credentials admit another. -/
theorem configured_credentials_admit_requests_witness :
    ("T" : String) ≠ ""
    ∧ authenticate ⟨some "T", some "alice", some "pw"⟩ (fun s => s)
        ⟨some "Bearer T", none⟩ = AuthResult.allow
    ∧ authenticate ⟨some "T", some "alice", some "pw"⟩ (fun s => s)
        ⟨some "Basic alice:pw", none⟩ = AuthResult.allow :=
  ⟨by decide,
    (configured_credentials_admit_requests "T" "alice" "pw" (fun s => s)
        ⟨some "Bearer T", none⟩ (by decide) (by decide) (by decide)).2.2.1 rfl
        "Bearer T" rfl (by decide) (by decide),
    (configured_credentials_admit_requests "T" "alice" "pw" (fun s => s)
        ⟨some "Basic alice:pw", none⟩ (by decide) (by decide) (by decide)).2.2.2 rfl
        "Basic alice:pw" rfl (by decide) (by decide) (by decide)⟩

/-- Claim C6 counterexample: two rejected requests receive different
response bodies, one naming the missing credentials and one naming the
invalid token, so the rejection does reveal which credential check
failed. -/
theorem rejection_messages_differ_between_checks :
    authenticate ⟨some "T", none, none⟩ (fun s => s) ⟨none, none⟩
      = AuthResult.deny 401 "Unauthorized: Authentication required"
    ∧ authenticate ⟨some "T", none, none⟩ (fun s => s) ⟨some "Bearer X", none⟩
      = AuthResult.deny 401 "Unauthorized: Invalid token"
    ∧ authenticate ⟨some "T", none, none⟩ (fun s => s) ⟨none, none⟩
      ≠ authenticate ⟨some "T", none, none⟩ (fun s => s) ⟨some "Bearer X", none⟩ := by
  refine ⟨rfl, rfl, ?_⟩
  decide

/-- Claim C6 as amended: every rejection of the authentication middleware
carries status 401 and a message beginning with Unauthorized, but the
message text identifies which credential check failed. -/
theorem every_rejection_is_401_unauthorized
    (cfg : AuthConfig) (dec : String → String) (req : AuthRequest)
    (st : Nat) (msg : String)
    (h : authenticate cfg dec req = AuthResult.deny st msg) :
    st = 401 ∧ jsStartsWith msg "Unauthorized" = true := by
  simp only [authenticate] at h
  repeat' split at h
  all_goals first
    | (injection h with h1 h2; subst h1; subst h2; exact ⟨rfl, by decide⟩)
    | simp at h

/-- Claim C6 witness: the missing-credentials rejection is a 401 whose
message begins with Unauthorized. -/
theorem every_rejection_is_401_unauthorized_witness :
    authenticate ⟨some "T", none, none⟩ (fun s => s) ⟨none, some ""⟩
      = AuthResult.deny 401 "Unauthorized: Authentication required"
    ∧ (401 = 401
        ∧ jsStartsWith "Unauthorized: Authentication required" "Unauthorized" = true) :=
  ⟨rfl,
    every_rejection_is_401_unauthorized ⟨some "T", none, none⟩ (fun s => s)
      ⟨none, some ""⟩ 401 "Unauthorized: Authentication required" rfl⟩

/-- A notification-shaped JSON object whose validated image is sampleA. -/
def goodJson : Json :=
  Json.obj [("id", Json.num 1), ("tag", Json.str "tagA"), ("key", Json.str "keyA"),
    ("group", Json.str "groupA"), ("packageName", Json.str "com.example.app"),
    ("title", Json.str "titleA"), ("content", Json.str "contentA"),
    ("when", Json.str "2024")]

/-- A JSON value that does not match the record shape. -/
def badJson : Json := Json.str "oops"

/-- Sample external JSON.parse returning a partially valid batch. -/
def parseSample : String → Except String Json :=
  fun s => if s == "batch" then Except.ok (Json.arr [goodJson, badJson])
           else Except.error "unexpected"

/-- Claim C9: the snapshot source never rejects an empty-but-valid result:
zero exit with empty or null output resolves with the empty snapshot; and
it validates the whole batch strictly first, returning the validated batch
on success and, on strict failure, exactly the entries that individually
match the record shape, in source order, instead of failing the call. -/
theorem snapshot_source_empty_and_filtering_policy
    (jsonParse : String → Except String Json) (stdout stderrText : String)
    (elements : List Json) :
    (jsTrim stdout = "" →
      termuxGetCurrentNotifications jsonParse 0 stdout stderrText = Except.ok [])
    ∧ (jsonParse (jsTrim stdout) = Except.ok Json.null →
      termuxGetCurrentNotifications jsonParse 0 stdout stderrText = Except.ok [])
    ∧ (jsTrim stdout ≠ "" → jsonParse (jsTrim stdout) = Except.ok (Json.arr elements) →
        parseNotificationArray elements = none →
        termuxGetCurrentNotifications jsonParse 0 stdout stderrText
          = Except.ok (elements.filterMap validateNotification))
    ∧ (jsTrim stdout ≠ "" → jsonParse (jsTrim stdout) = Except.ok (Json.arr elements) →
        ∀ ns, parseNotificationArray elements = some ns →
          termuxGetCurrentNotifications jsonParse 0 stdout stderrText = Except.ok ns) := by
  refine ⟨?_, ?_, ?_, ?_⟩
  · intro he
    unfold termuxGetCurrentNotifications
    simp [he]
  · intro hparse
    by_cases he : jsTrim stdout = ""
    · unfold termuxGetCurrentNotifications
      simp [he]
    · unfold termuxGetCurrentNotifications
      simp [he, hparse, jsFalsy]
  · intro he hparse hnone
    unfold termuxGetCurrentNotifications
    simp [he, hparse, jsFalsy, hnone]
  · intro he hparse ns hsome
    unfold termuxGetCurrentNotifications
    simp [he, hparse, jsFalsy, hsome]

/-- Claim C9 witness: a batch of one valid and one invalid entry fails
strict validation and resolves with exactly the valid entry. -/
theorem snapshot_source_empty_and_filtering_policy_witness :
    jsTrim "batch" ≠ ""
    ∧ parseSample (jsTrim "batch") = Except.ok (Json.arr [goodJson, badJson])
    ∧ parseNotificationArray [goodJson, badJson] = none
    ∧ termuxGetCurrentNotifications parseSample 0 "batch" "" = Except.ok [sampleA] :=
  ⟨by decide, rfl, rfl,
    ((snapshot_source_empty_and_filtering_policy parseSample "batch" ""
        [goodJson, badJson]).2.2.1 (by decide) rfl rfl).trans rfl⟩

theorem parseNotificationArray_singleton (j : Json) :
    parseNotificationArray [j]
      = (validateNotification j).map (fun n => [n]) := by
  unfold parseNotificationArray
  cases validateNotification j <;> rfl

/-- Claim C10: when the parsed output is a truthy non-array JSON value, it
is wrapped into a one-element batch and validated like any batch, so a
lone notification-shaped object yields a one-record snapshot instead of an
error. -/
theorem lone_object_wrapped_into_singleton_batch
    (jsonParse : String → Except String Json) (stdout stderrText : String) (j : Json)
    (hne : jsTrim stdout ≠ "") (hparse : jsonParse (jsTrim stdout) = Except.ok j)
    (harr : isJsonArray j = false) (hfalsy : jsFalsy j = false) :
    termuxGetCurrentNotifications jsonParse 0 stdout stderrText
      = Except.ok (validateNotification j).toList := by
  unfold termuxGetCurrentNotifications
  cases j with
  | arr elements => simp [isJsonArray] at harr
  | null => simp [jsFalsy] at hfalsy
  | bool b =>
      cases hv : validateNotification (Json.bool b) <;>
        simp [hne, hparse, hfalsy, parseNotificationArray_singleton, hv]
  | num n =>
      cases hv : validateNotification (Json.num n) <;>
        simp [hne, hparse, hfalsy, parseNotificationArray_singleton, hv]
  | str s =>
      cases hv : validateNotification (Json.str s) <;>
        simp [hne, hparse, hfalsy, parseNotificationArray_singleton, hv]
  | obj fields =>
      cases hv : validateNotification (Json.obj fields) <;>
        simp [hne, hparse, hfalsy, parseNotificationArray_singleton, hv]

/-- Claim C10 witness: a lone notification-shaped object parses into the
one-record snapshot containing its validated image. -/
theorem lone_object_wrapped_into_singleton_batch_witness :
    jsTrim "obj" ≠ ""
    ∧ isJsonArray goodJson = false
    ∧ jsFalsy goodJson = false
    ∧ termuxGetCurrentNotifications
        (fun _ => Except.ok goodJson) 0 "obj" "" = Except.ok [sampleA] :=
  ⟨by decide, rfl, rfl,
    (lone_object_wrapped_into_singleton_batch (fun _ => Except.ok goodJson)
        "obj" "" goodJson (by decide) rfl rfl rfl).trans rfl⟩
